import Mathlib

/-!
Verification of the error-erasure core of the `http` crate
(`src/error.rs` and `src/convert.rs`), under the alloc-enabled build
configuration, in which all seven `ErrorKind` variants are present.

`core::any::TypeId` is modelled by the inductive `TyId`: one identity per
supported concrete error type, one for the wrapper type `http::Error`
itself, `optionOf t` for the identity of `Option<T>`, and `other n` for
every further static type.  A `&dyn error::Error + 'static` reference is
modelled by `DynError`: the referent's type identity, its `Display` and
`Debug` renderings as strings, and its own `source` chain.
-/

namespace Http

/-- Runtime type identity, modelling `core::any::TypeId`.  Distinct
constructors model the distinct `TypeId`s of distinct static types. -/
inductive TyId : Type where
  | invalidStatusCode
  | invalidMethod
  | invalidUri
  | invalidUriParts
  | invalidHeaderName
  | invalidHeaderValue
  | maxSizeReached
  | errorTy
  | optionOf (t : TyId)
  | other (n : Nat)
deriving DecidableEq

/-- A type-erased `dyn error::Error + 'static` view of an error value:
its runtime type identity, its `Display` rendering, its `Debug`
rendering, and its own cause chain (`source`). -/
inductive DynError : Type where
  | mk (ty : TyId) (displayStr : String) (debugStr : String) (source : Option DynError)

def DynError.ty : DynError → TyId
  | .mk t _ _ _ => t

def DynError.displayStr : DynError → String
  | .mk _ d _ _ => d

def DynError.debugStr : DynError → String
  | .mk _ _ d _ => d

def DynError.source : DynError → Option DynError
  | .mk _ _ _ s => s

/-- `<dyn Any>::is::<T>`: compare the referent's `TypeId` with `T`'s. -/
def DynError.is (e : DynError) (T : TyId) : Bool :=
  decide (e.ty = T)

/-- `<dyn Any>::downcast_ref::<T>`: the same referent, if its `TypeId`
equals `T`'s; otherwise `None`. -/
def DynError.downcast_ref (e : DynError) (T : TyId) : Option DynError :=
  if e.ty = T then some e else none

/-- Modelled from the spec: the concrete status-code validation error
(external to this core), exposing a message, a `Debug` rendering and an
optional underlying cause. -/
structure InvalidStatusCode where
  displayStr : String
  debugStr : String
  source : Option DynError

/-- Modelled from the spec: the concrete method validation error. -/
structure InvalidMethod where
  displayStr : String
  debugStr : String
  source : Option DynError

/-- Modelled from the spec: the concrete URI validation error. -/
structure InvalidUri where
  displayStr : String
  debugStr : String
  source : Option DynError

/-- Modelled from the spec: the concrete URI-parts validation error. -/
structure InvalidUriParts where
  displayStr : String
  debugStr : String
  source : Option DynError

/-- Modelled from the spec: the concrete header-name validation error. -/
structure InvalidHeaderName where
  displayStr : String
  debugStr : String
  source : Option DynError

/-- Modelled from the spec: the concrete header-value validation error. -/
structure InvalidHeaderValue where
  displayStr : String
  debugStr : String
  source : Option DynError

/-- Modelled from the spec: the concrete size-limit-exceeded error. -/
structure MaxSizeReached where
  displayStr : String
  debugStr : String
  source : Option DynError

/-- Erase an `InvalidStatusCode` behind `dyn error::Error`. -/
def InvalidStatusCode.toDyn (e : InvalidStatusCode) : DynError :=
  .mk .invalidStatusCode e.displayStr e.debugStr e.source

/-- Erase an `InvalidMethod` behind `dyn error::Error`. -/
def InvalidMethod.toDyn (e : InvalidMethod) : DynError :=
  .mk .invalidMethod e.displayStr e.debugStr e.source

/-- Erase an `InvalidUri` behind `dyn error::Error`. -/
def InvalidUri.toDyn (e : InvalidUri) : DynError :=
  .mk .invalidUri e.displayStr e.debugStr e.source

/-- Erase an `InvalidUriParts` behind `dyn error::Error`. -/
def InvalidUriParts.toDyn (e : InvalidUriParts) : DynError :=
  .mk .invalidUriParts e.displayStr e.debugStr e.source

/-- Erase an `InvalidHeaderName` behind `dyn error::Error`. -/
def InvalidHeaderName.toDyn (e : InvalidHeaderName) : DynError :=
  .mk .invalidHeaderName e.displayStr e.debugStr e.source

/-- Erase an `InvalidHeaderValue` behind `dyn error::Error`. -/
def InvalidHeaderValue.toDyn (e : InvalidHeaderValue) : DynError :=
  .mk .invalidHeaderValue e.displayStr e.debugStr e.source

/-- Erase a `MaxSizeReached` behind `dyn error::Error`. -/
def MaxSizeReached.toDyn (e : MaxSizeReached) : DynError :=
  .mk .maxSizeReached e.displayStr e.debugStr e.source

/-- `enum ErrorKind` from `src/error.rs`: a closed tagged union holding
exactly one concrete error value. -/
inductive ErrorKind : Type where
  | statusCode (e : InvalidStatusCode)
  | method (e : InvalidMethod)
  | uri (e : InvalidUri)
  | uriParts (e : InvalidUriParts)
  | headerName (e : InvalidHeaderName)
  | headerValue (e : InvalidHeaderValue)
  | maxSizeReached (e : MaxSizeReached)

/-- `pub struct Error { inner: ErrorKind }` from `src/error.rs`. -/
structure Error where
  inner : ErrorKind

/-- `impl From<status::InvalidStatusCode> for Error`. -/
def Error.from_invalid_status_code (e : InvalidStatusCode) : Error :=
  ⟨ErrorKind.statusCode e⟩

/-- `impl From<method::InvalidMethod> for Error`. -/
def Error.from_invalid_method (e : InvalidMethod) : Error :=
  ⟨ErrorKind.method e⟩

/-- `impl From<uri::InvalidUri> for Error`. -/
def Error.from_invalid_uri (e : InvalidUri) : Error :=
  ⟨ErrorKind.uri e⟩

/-- `impl From<uri::InvalidUriParts> for Error`. -/
def Error.from_invalid_uri_parts (e : InvalidUriParts) : Error :=
  ⟨ErrorKind.uriParts e⟩

/-- `impl From<header::InvalidHeaderName> for Error`. -/
def Error.from_invalid_header_name (e : InvalidHeaderName) : Error :=
  ⟨ErrorKind.headerName e⟩

/-- `impl From<header::InvalidHeaderValue> for Error`. -/
def Error.from_invalid_header_value (e : InvalidHeaderValue) : Error :=
  ⟨ErrorKind.headerValue e⟩

/-- `impl From<MaxSizeReached> for Error`. -/
def Error.from_max_size_reached (e : MaxSizeReached) : Error :=
  ⟨ErrorKind.maxSizeReached e⟩

/-- `core::convert::Infallible`: an uninhabited type. -/
inductive Infallible : Type

/-- `impl From<core::convert::Infallible> for Error`: `match err {}`. -/
def Error.from_infallible (i : Infallible) : Error :=
  nomatch i

/-- `Error::get_ref`: a reference to the lower level, inner error. -/
def Error.get_ref (err : Error) : DynError :=
  match err.inner with
  | ErrorKind.statusCode e => e.toDyn
  | ErrorKind.method e => e.toDyn
  | ErrorKind.uri e => e.toDyn
  | ErrorKind.uriParts e => e.toDyn
  | ErrorKind.headerName e => e.toDyn
  | ErrorKind.headerValue e => e.toDyn
  | ErrorKind.maxSizeReached e => e.toDyn

/-- `Error::is::<T>`: `self.get_ref().is::<T>()`. -/
def Error.is (err : Error) (T : TyId) : Bool :=
  (err.get_ref).is T

/-- `<Error as error::Error>::source`: `self.get_ref().source()`. -/
def Error.source (err : Error) : Option DynError :=
  (err.get_ref).source

/-- `<Error as fmt::Display>::fmt`: `fmt::Display::fmt(self.get_ref(), f)`. -/
def Error.displayStr (err : Error) : String :=
  (err.get_ref).displayStr

/-- `<Error as fmt::Debug>::fmt`:
`f.debug_tuple("http::Error").field(&self.get_ref()).finish()`, which
renders as the tag `http::Error` around the field's `Debug` output. -/
def Error.debugStr (err : Error) : String :=
  "http::Error(" ++ (err.get_ref).debugStr ++ ")"

/-- Outcome of one expansion of `if_downcast_into!`: the body ran exactly
once producing `out`; or the guard failed and the original value is still
owned, intact, by the caller; or an `unwrap` panicked. -/
inductive DowncastRun (α β : Type) : Type where
  | ran (out : β)
  | skipped (orig : α)
  | panicked

/-- `(&mut slot as &mut dyn Any).downcast_mut::<Option<B>>()` where the
referent `slot` has static type `Option<A>`: succeeds exactly when the
`TypeId` of `Option<A>` equals the `TypeId` of `Option<B>`. -/
def downcast_mut_option {α : Type} (A B : TyId) (slot : Option α) : Option (Option α) :=
  if TyId.optionOf A = TyId.optionOf B then some slot else none

/-- The `if_downcast_into!(A, B, val, body)` expansion from
`src/convert.rs`: if `TypeId::of::<A>() == TypeId::of::<B>()`, store `val`
in an `Option` slot, `downcast_mut` the slot to `Option<B>` and `unwrap`,
`take` the value and `unwrap`, then run the body on it; otherwise do
nothing, leaving `val` with the caller. -/
def if_downcast_into {α β : Type} (A B : TyId) (val : α) (body : α → β) : DowncastRun α β :=
  if A = B then
    match downcast_mut_option A B (some val) with
    | none => DowncastRun.panicked
    | some slot =>
      match slot with
      | none => DowncastRun.panicked
      | some v => DowncastRun.ran (body v)
  else
    DowncastRun.skipped val

/-- `decide` of a propositional equality is symmetric in its sides. -/
theorem decide_eq_symm {α : Type} [DecidableEq α] (a b : α) :
    decide (a = b) = decide (b = a) := by
  rcases eq_or_ne a b with h | h
  · subst h; rfl
  · rw [decide_eq_false h, decide_eq_false (Ne.symm h)]

end Http

namespace Http

/-- C1: wrapping a value of any supported concrete error type into `Error`
makes `is` answer true for exactly that type's identity and false for every
other identity (in particular for every other supported type). -/
theorem error_is_exact_type : ∀ (U : TyId),
    (∀ e : InvalidStatusCode,
      (Error.from_invalid_status_code e).is U = decide (U = TyId.invalidStatusCode))
  ∧ (∀ e : InvalidMethod,
      (Error.from_invalid_method e).is U = decide (U = TyId.invalidMethod))
  ∧ (∀ e : InvalidUri,
      (Error.from_invalid_uri e).is U = decide (U = TyId.invalidUri))
  ∧ (∀ e : InvalidUriParts,
      (Error.from_invalid_uri_parts e).is U = decide (U = TyId.invalidUriParts))
  ∧ (∀ e : InvalidHeaderName,
      (Error.from_invalid_header_name e).is U = decide (U = TyId.invalidHeaderName))
  ∧ (∀ e : InvalidHeaderValue,
      (Error.from_invalid_header_value e).is U = decide (U = TyId.invalidHeaderValue))
  ∧ (∀ e : MaxSizeReached,
      (Error.from_max_size_reached e).is U = decide (U = TyId.maxSizeReached)) :=
  fun U =>
    ⟨fun _ => decide_eq_symm _ U, fun _ => decide_eq_symm _ U,
     fun _ => decide_eq_symm _ U, fun _ => decide_eq_symm _ U,
     fun _ => decide_eq_symm _ U, fun _ => decide_eq_symm _ U,
     fun _ => decide_eq_symm _ U⟩

/-- C2: `if_downcast_into!` runs the body exactly once on the original
value when the two `TypeId`s coincide, and otherwise never runs the body
and leaves the original value intact with the caller. -/
theorem if_downcast_into_semantics {α β : Type} (A B : TyId) (val : α) (body : α → β) :
    if_downcast_into A B val body =
      if A = B then DowncastRun.ran (body val) else DowncastRun.skipped val := by
  rcases eq_or_ne A B with h | h
  · subst h
    simp [if_downcast_into, downcast_mut_option]
  · simp [if_downcast_into, h]

/-- C3: downcasting the reference returned by `get_ref` to the originating
concrete type always succeeds and yields the original value (seen through
the same erasure). -/
theorem get_ref_downcast_original :
    (∀ e : InvalidStatusCode,
      ((Error.from_invalid_status_code e).get_ref).downcast_ref TyId.invalidStatusCode
        = some e.toDyn)
  ∧ (∀ e : InvalidMethod,
      ((Error.from_invalid_method e).get_ref).downcast_ref TyId.invalidMethod = some e.toDyn)
  ∧ (∀ e : InvalidUri,
      ((Error.from_invalid_uri e).get_ref).downcast_ref TyId.invalidUri = some e.toDyn)
  ∧ (∀ e : InvalidUriParts,
      ((Error.from_invalid_uri_parts e).get_ref).downcast_ref TyId.invalidUriParts
        = some e.toDyn)
  ∧ (∀ e : InvalidHeaderName,
      ((Error.from_invalid_header_name e).get_ref).downcast_ref TyId.invalidHeaderName
        = some e.toDyn)
  ∧ (∀ e : InvalidHeaderValue,
      ((Error.from_invalid_header_value e).get_ref).downcast_ref TyId.invalidHeaderValue
        = some e.toDyn)
  ∧ (∀ e : MaxSizeReached,
      ((Error.from_max_size_reached e).get_ref).downcast_ref TyId.maxSizeReached
        = some e.toDyn) :=
  ⟨fun _ => rfl, fun _ => rfl, fun _ => rfl, fun _ => rfl,
   fun _ => rfl, fun _ => rfl, fun _ => rfl⟩

/-- C4: `Error::source` returns exactly the wrapped concrete value's own
cause chain; the wrapper contributes no extra link. -/
theorem source_delegates_unmodified :
    (∀ e : InvalidStatusCode, (Error.from_invalid_status_code e).source = e.source)
  ∧ (∀ e : InvalidMethod, (Error.from_invalid_method e).source = e.source)
  ∧ (∀ e : InvalidUri, (Error.from_invalid_uri e).source = e.source)
  ∧ (∀ e : InvalidUriParts, (Error.from_invalid_uri_parts e).source = e.source)
  ∧ (∀ e : InvalidHeaderName, (Error.from_invalid_header_name e).source = e.source)
  ∧ (∀ e : InvalidHeaderValue, (Error.from_invalid_header_value e).source = e.source)
  ∧ (∀ e : MaxSizeReached, (Error.from_max_size_reached e).source = e.source) :=
  ⟨fun _ => rfl, fun _ => rfl, fun _ => rfl, fun _ => rfl,
   fun _ => rfl, fun _ => rfl, fun _ => rfl⟩

/-- C5: the `Display` rendering of the `Error` equals the `Display`
rendering of the wrapped concrete value, with no added framing text. -/
theorem display_delegates_unmodified :
    (∀ e : InvalidStatusCode, (Error.from_invalid_status_code e).displayStr = e.displayStr)
  ∧ (∀ e : InvalidMethod, (Error.from_invalid_method e).displayStr = e.displayStr)
  ∧ (∀ e : InvalidUri, (Error.from_invalid_uri e).displayStr = e.displayStr)
  ∧ (∀ e : InvalidUriParts, (Error.from_invalid_uri_parts e).displayStr = e.displayStr)
  ∧ (∀ e : InvalidHeaderName, (Error.from_invalid_header_name e).displayStr = e.displayStr)
  ∧ (∀ e : InvalidHeaderValue, (Error.from_invalid_header_value e).displayStr = e.displayStr)
  ∧ (∀ e : MaxSizeReached, (Error.from_max_size_reached e).displayStr = e.displayStr) :=
  ⟨fun _ => rfl, fun _ => rfl, fun _ => rfl, fun _ => rfl,
   fun _ => rfl, fun _ => rfl, fun _ => rfl⟩

/-- A sample concrete status-code error value. -/
def iscExample : InvalidStatusCode :=
  ⟨"invalid status code", "InvalidStatusCode", none⟩

/-- C6 counterexample: the `Debug` rendering of an `Error` is not the
`Debug` rendering of the contained value; it carries the wrapper's own tag
`http::Error`. -/
theorem debug_shows_wrapper_tag :
    (Error.from_invalid_status_code iscExample).debugStr ≠ iscExample.debugStr
    ∧ (Error.from_invalid_status_code iscExample).debugStr
        = "http::Error(InvalidStatusCode)" := by
  constructor
  · decide
  · rfl

/-- C6 amended: the `Debug` rendering shows the wrapper's tag
`http::Error` around the contained concrete value's `Debug` output,
obtained through `get_ref` so that the `ErrorKind` variant tag is
skipped. -/
theorem debug_wraps_inner_debug :
    (∀ e : InvalidStatusCode,
      (Error.from_invalid_status_code e).debugStr = "http::Error(" ++ e.debugStr ++ ")")
  ∧ (∀ e : InvalidMethod,
      (Error.from_invalid_method e).debugStr = "http::Error(" ++ e.debugStr ++ ")")
  ∧ (∀ e : InvalidUri,
      (Error.from_invalid_uri e).debugStr = "http::Error(" ++ e.debugStr ++ ")")
  ∧ (∀ e : InvalidUriParts,
      (Error.from_invalid_uri_parts e).debugStr = "http::Error(" ++ e.debugStr ++ ")")
  ∧ (∀ e : InvalidHeaderName,
      (Error.from_invalid_header_name e).debugStr = "http::Error(" ++ e.debugStr ++ ")")
  ∧ (∀ e : InvalidHeaderValue,
      (Error.from_invalid_header_value e).debugStr = "http::Error(" ++ e.debugStr ++ ")")
  ∧ (∀ e : MaxSizeReached,
      (Error.from_max_size_reached e).debugStr = "http::Error(" ++ e.debugStr ++ ")") :=
  ⟨fun _ => rfl, fun _ => rfl, fun _ => rfl, fun _ => rfl,
   fun _ => rfl, fun _ => rfl, fun _ => rfl⟩

/-- C7: every `From` impl is a total conversion wrapping exactly the given
value, and `Infallible` is uninhabited, so the conversion from it is
unreachable code that is never executed. -/
theorem conversions_total_infallible_unreachable :
    (∀ _ : Infallible, False)
  ∧ (∀ e : InvalidStatusCode,
      (Error.from_invalid_status_code e).inner = ErrorKind.statusCode e)
  ∧ (∀ e : InvalidMethod, (Error.from_invalid_method e).inner = ErrorKind.method e)
  ∧ (∀ e : InvalidUri, (Error.from_invalid_uri e).inner = ErrorKind.uri e)
  ∧ (∀ e : InvalidUriParts, (Error.from_invalid_uri_parts e).inner = ErrorKind.uriParts e)
  ∧ (∀ e : InvalidHeaderName,
      (Error.from_invalid_header_name e).inner = ErrorKind.headerName e)
  ∧ (∀ e : InvalidHeaderValue,
      (Error.from_invalid_header_value e).inner = ErrorKind.headerValue e)
  ∧ (∀ e : MaxSizeReached,
      (Error.from_max_size_reached e).inner = ErrorKind.maxSizeReached e) := by
  refine ⟨?_, ?_, ?_, ?_, ?_, ?_, ?_, ?_⟩
  · intro i
    cases i
  all_goals exact fun _ => rfl

/-- C8: for every `Error` and every type identity `T` (supported or not),
`Error::is::<T>` answers true exactly when the downcast of `get_ref` to
`T` would succeed. -/
theorem is_agrees_with_downcast (err : Error) (T : TyId) :
    err.is T = ((err.get_ref).downcast_ref T).isSome := by
  rcases eq_or_ne (err.get_ref).ty T with h | h
  · simp [Error.is, DynError.is, DynError.downcast_ref, h]
  · simp [Error.is, DynError.is, DynError.downcast_ref, h]

/-- C9: `err.is::<Error>()` is false for every `Error`, however it was
constructed: the identity check is against the contained concrete value,
never against the wrapper type itself. -/
theorem is_wrapper_type_false (err : Error) : err.is TyId.errorTy = false := by
  rcases err with ⟨k⟩
  cases k <;> rfl

/-- C10: when the guard `TypeId::of::<A>() == TypeId::of::<B>()` holds,
the two `unwrap`s in `if_downcast_into!` never panic: `downcast_mut` on
the slot returns `Some`, and `take` yields the stored value, so the
expansion runs the body rather than panicking. -/
theorem if_downcast_into_no_panic {α β : Type} (A B : TyId) (val : α) (body : α → β)
    (h : A = B) :
    downcast_mut_option A B (some val) = some (some val)
    ∧ if_downcast_into A B val body ≠ DowncastRun.panicked := by
  subst h
  constructor
  · simp [downcast_mut_option]
  · simp [if_downcast_into, downcast_mut_option]

/-- C10 witness: the no-panic theorem at a concrete instantiation. -/
theorem if_downcast_into_no_panic_witness :
    downcast_mut_option TyId.invalidMethod TyId.invalidMethod (some (0 : Nat))
      = some (some 0)
    ∧ if_downcast_into TyId.invalidMethod TyId.invalidMethod (0 : Nat) (fun n => n)
        ≠ DowncastRun.panicked :=
  if_downcast_into_no_panic TyId.invalidMethod TyId.invalidMethod 0 (fun n => n) rfl

end Http
